import Mathlib

/-!
Shallow embedding of the filter-and-aggregate pipeline of
`src/Code/dashboard.py` (function `update_dashboard` plus the static
`TEAM_COLORS` table), together with theorems settling the claims about it.

Modelling conventions:
* a pandas `DataFrame` is a `List` of row structures, one structure per table;
* numeric columns are `ℚ` (`WIN` is a `Bool`, averaged through `winQ`,
  matching the 0/1 numeric column the code takes `.mean()` of);
* `groupby` with pandas' default `sort=True` is: sorted deduplicated key list,
  each key paired with the aggregate of the rows having that key;
* a pandas `NaN` produced by an undefined statistic is `Option.none`, and a
  pandas reduction that skips NaN is modelled on `Option ℚ`;
* a raising computation caught by `try/except` is modelled as an
  `Option`-returning function, `none` on the raising branch.
-/

namespace Statistella

/-- One row of `team_game_stats.csv` (columns used by the callback). -/
structure TeamRow where
  season : Int
  nickname : String
  conference : String
  gameId : Int
  pts : ℚ
  win : Bool
  homeAway : String
  pointDiff : ℚ
  deriving DecidableEq, Repr

/-- One row of `player_game_stats.csv` (columns used by the callback). -/
structure PlayerRow where
  season : Int
  playerName : String
  nickname : String
  minutesPlayed : ℚ
  pts : ℚ
  efficiencyScore : ℚ
  gameId : Int
  deriving DecidableEq, Repr

/-- The numeric value of the `WIN` column (0/1) that the code averages. -/
def winQ (r : TeamRow) : ℚ := if r.win then 1 else 0

/-- The three dropdown selections; `[]` models Python's falsy `None`/empty
list, for which the corresponding `if` in the code skips the filter. -/
structure FilterSelection where
  seasons : List Int
  teams : List String
  players : List String
  deriving DecidableEq, Repr

/-- dashboard.py 324-330: sequential `isin` filters on the team table
(`season` then `team`; the player selection is never applied to it). -/
def filterTeamTable (sel : FilterSelection) (df : List TeamRow) : List TeamRow :=
  let df1 := if sel.seasons = [] then df else
    df.filter (fun r => decide (r.season ∈ sel.seasons))
  if sel.teams = [] then df1 else
    df1.filter (fun r => decide (r.nickname ∈ sel.teams))

/-- dashboard.py 324-333: sequential `isin` filters on the player table
(`season`, then `team`, then `player`). -/
def filterPlayerTable (sel : FilterSelection) (df : List PlayerRow) : List PlayerRow :=
  let df1 := if sel.seasons = [] then df else
    df.filter (fun r => decide (r.season ∈ sel.seasons))
  let df2 := if sel.teams = [] then df1 else
    df1.filter (fun r => decide (r.nickname ∈ sel.teams))
  if sel.players = [] then df2 else
    df2.filter (fun r => decide (r.playerName ∈ sel.players))

/-- Spec-side row predicate: a team row matches every provided constraint
(a constraint with no values is a no-op). -/
def teamRowMatches (sel : FilterSelection) (r : TeamRow) : Prop :=
  (sel.seasons = [] ∨ r.season ∈ sel.seasons) ∧
    (sel.teams = [] ∨ r.nickname ∈ sel.teams)

/-- Spec-side row predicate: a player row matches every provided constraint. -/
def playerRowMatches (sel : FilterSelection) (r : PlayerRow) : Prop :=
  (sel.seasons = [] ∨ r.season ∈ sel.seasons) ∧
    (sel.teams = [] ∨ r.nickname ∈ sel.teams) ∧
    (sel.players = [] ∨ r.playerName ∈ sel.players)

instance (sel : FilterSelection) (r : TeamRow) : Decidable (teamRowMatches sel r) := by
  unfold teamRowMatches; infer_instance

instance (sel : FilterSelection) (r : PlayerRow) : Decidable (playerRowMatches sel r) := by
  unfold playerRowMatches; infer_instance

/-- pandas `.mean()` of a numeric column: sum over length (`ℚ` division by the
length `0` of an empty list yields `0`; every use on an empty list is guarded
exactly where the code guards it). -/
def mean (l : List ℚ) : ℚ := l.sum / l.length

/-- The sorted deduplicated key list that a pandas `groupby` (default
`sort=True`) produces as its index. -/
def sortedKeys {κ : Type} (le : κ → κ → Prop) [DecidableRel le] [DecidableEq κ]
    (l : List κ) : List κ :=
  List.insertionSort le l.dedup

/-- pandas `df.groupby(key).agg(...)`: each sorted distinct key paired with the
aggregate of the rows carrying that key. -/
def groupByAgg {κ α β : Type} (le : κ → κ → Prop) [DecidableRel le] [DecidableEq κ]
    (key : α → κ) (agg : List α → β) (l : List α) : List (κ × β) :=
  (sortedKeys le (l.map key)).map fun k =>
    (k, agg (l.filter fun r => decide (key r = k)))

/-- pandas `.median()` on a column without NaN: middle element of the sorted
values, or the average of the two middle elements for an even count. -/
def median (l : List ℚ) : ℚ :=
  let s := List.insertionSort (· ≤ ·) l
  if s.length = 0 then 0
  else if s.length % 2 = 1 then s.getD (s.length / 2) 0
  else (s.getD (s.length / 2 - 1) 0 + s.getD (s.length / 2) 0) / 2

/-- pandas `.median()` with its default `skipna=True` on a column that may hold
NaN (`none`): NaN entries are dropped, and an all-NaN group yields NaN. -/
def medianSkipNA (l : List (Option ℚ)) : Option ℚ :=
  if l.filterMap id = [] then none else some (median (l.filterMap id))

/-- The sample variance underlying pandas `.std()` (ddof = 1): `none` models
the NaN that `.std()` returns on a group of fewer than two values. The code's
`.std()` is the pointwise square root of this quantity; the square root is
irrational in general, and no claim depends on the numeric value of the
consistency metric — only on its definedness pattern and on equality of equal
inputs, both invariant under the pointwise square root. -/
def sampleVar (l : List ℚ) : Option ℚ :=
  if l.length < 2 then none
  else some ((l.map fun x => (x - mean l) ^ 2).sum / ((l.length : ℚ) - 1))

/-- pandas `.max()` of a numeric column of a (nonempty) group. -/
def listMax : List ℚ → ℚ
  | [] => 0
  | x :: xs => xs.foldl max x

/-- pandas `sort_values(ascending=False)` by a numeric key. pandas' default
unstable quicksort leaves the relative order of tied rows unspecified, so no
claim below depends on the order among ties. -/
def sortByDesc {α : Type} (key : α → ℚ) (l : List α) : List α :=
  List.insertionSort (fun a b => key b ≤ key a) l

/-- Lexicographic order used for two-column pandas group keys. -/
def pairLe (a b : Int × String) : Prop :=
  a.1 < b.1 ∨ (a.1 = b.1 ∧ a.2 ≤ b.2)

instance : DecidableRel pairLe := fun a b => by unfold pairLe; infer_instance

instance : IsTrans (Int × String) pairLe where
  trans a b c hab hbc := by
    rcases hab with h1 | ⟨h1, h1'⟩ <;> rcases hbc with h2 | ⟨h2, h2'⟩
    · exact Or.inl (h1.trans h2)
    · exact Or.inl (h2 ▸ h1)
    · exact Or.inl (h1 ▸ h2)
    · exact Or.inr ⟨h1.trans h2, h1'.trans h2'⟩

instance : IsTotal (Int × String) pairLe where
  total a b := by
    rcases lt_trichotomy a.1 b.1 with h | h | h
    · exact Or.inl (Or.inl h)
    · rcases le_total a.2 b.2 with h2 | h2
      · exact Or.inl (Or.inr ⟨h, h2⟩)
      · exact Or.inr (Or.inr ⟨h.symm, h2⟩)
    · exact Or.inr (Or.inl h)

instance : IsAntisymm (Int × String) pairLe where
  antisymm a b hab hba := by
    rcases hab with h1 | ⟨h1, h1'⟩ <;> rcases hba with h2 | ⟨h2, h2'⟩
    · exact absurd (h1.trans h2) (lt_irrefl _)
    · exact absurd h1 (h2 ▸ lt_irrefl _)
    · exact absurd h2 (h1 ▸ lt_irrefl _)
    · exact Prod.ext h1 (le_antisymm h1' h2')

/-- dashboard.py 342: `df_team["GAME_ID"].nunique()`. -/
def totalGames (df : List TeamRow) : Nat := (df.map (·.gameId)).dedup.length

/-- dashboard.py 343: `df_player["PLAYER_NAME"].nunique()`. -/
def totalPlayers (df : List PlayerRow) : Nat := (df.map (·.playerName)).dedup.length

/-- dashboard.py 344: mean points KPI, `0` on an empty filtered table. -/
def avgPts (df : List TeamRow) : ℚ := if df = [] then 0 else mean (df.map (·.pts))

/-- dashboard.py 346: the rows flagged `"Home"`. -/
def homeRows (df : List TeamRow) : List TeamRow :=
  df.filter fun r => decide (r.homeAway = "Home")

/-- dashboard.py 345-349: home-win-rate KPI, `0` when no `"Home"` rows exist. -/
def homeWinRate (df : List TeamRow) : ℚ :=
  if homeRows df = [] then 0 else mean ((homeRows df).map winQ) * 100

/-- dashboard.py 458-460: season-wise mean points per team-game. -/
def seasonScoring (df : List TeamRow) : List (Int × ℚ) :=
  groupByAgg (· ≤ ·) (·.season) (fun g => mean (g.map (·.pts))) df

/-- dashboard.py 493: `groupby(["SEASON", "NICKNAME"])["WIN"].mean()`. -/
def perTeamWin (df : List TeamRow) : List ((Int × String) × ℚ) :=
  groupByAgg pairLe (fun r => (r.season, r.nickname)) (fun g => mean (g.map winQ)) df

/-- dashboard.py 492-495: league parity, the per-(season, team) mean win rate
regrouped by season and reduced by the median. -/
def parity (df : List TeamRow) : List (Int × ℚ) :=
  groupByAgg (· ≤ ·) (fun x => x.1.1) (fun g => median (g.map Prod.snd)) (perTeamWin df)

/-- Spec-side restatement of league parity (spec section 4.3, item 2): for each
season, the median across that season's teams of each team's mean win rate. -/
def paritySpec (df : List TeamRow) : List (Int × ℚ) :=
  (sortedKeys (· ≤ ·) (df.map (·.season))).map fun s =>
    (s, median ((sortedKeys (· ≤ ·)
        ((df.filter fun r => decide (r.season = s)).map (·.nickname))).map fun t =>
      mean (((df.filter fun r => decide (r.season = s)).filter
        fun r => decide (r.nickname = t)).map winQ)))

/-- The raw per-season mean of the win flag, which the parity aggregation is
claimed not to be. -/
def rawSeasonWinMean (df : List TeamRow) : List (Int × ℚ) :=
  groupByAgg (· ≤ ·) (·.season) (fun g => mean (g.map winQ)) df

/-- dashboard.py 514-515: win rate grouped by (season, home/away flag). -/
def homeAwayTrend (df : List TeamRow) : List ((Int × String) × ℚ) :=
  groupByAgg pairLe (fun r => (r.season, r.homeAway)) (fun g => mean (g.map winQ)) df

/-- dashboard.py 535-537: mean points grouped by (season, team). -/
def teamAvgSeries (df : List TeamRow) : List ((Int × String) × ℚ) :=
  groupByAgg pairLe (fun r => (r.season, r.nickname)) (fun g => mean (g.map (·.pts))) df

/-- dashboard.py 568-569: mean points grouped by (season, conference). -/
def confSeries (df : List TeamRow) : List ((Int × String) × ℚ) :=
  groupByAgg pairLe (fun r => (r.season, r.conference)) (fun g => mean (g.map (·.pts))) df

/-- dashboard.py 590: `groupby(["SEASON", "NICKNAME"])["POINT_DIFF"].std()`
(represented through `sampleVar`, see there). -/
def perTeamVar (df : List TeamRow) : List ((Int × String) × Option ℚ) :=
  groupByAgg pairLe (fun r => (r.season, r.nickname))
    (fun g => sampleVar (g.map (·.pointDiff))) df

/-- dashboard.py 589-592: the consistency aggregation, per-season median
(skipping NaN) of the per-(season, team) standard deviations. -/
def consistencySeries (df : List TeamRow) : List (Int × Option ℚ) :=
  groupByAgg (· ≤ ·) (fun x => x.1.1) (fun g => medianSkipNA (g.map Prod.snd)) (perTeamVar df)

/-- dashboard.py 596-613: the message shown instead of the consistency chart,
emitted exactly when the aggregated frame is empty (the `groupby` never raises,
so the `except` branch setting `consistency = None` is unreachable). -/
def consistencyMsg (df : List TeamRow) : String :=
  if consistencySeries df = [] then "No data for selected filters" else ""

/-- The premise of the consistency scenario: every (season, team) group of the
filtered team table contains at most one row (so each existing group has
exactly one game). -/
def oneGamePerGroup (df : List TeamRow) : Prop :=
  ∀ k : Int × String,
    (df.filter fun r => decide ((r.season, r.nickname) = k)).length ≤ 1

/-- dashboard.py 616-623 without the final `head`: mean win rate per team. -/
def teamSuccessAll (df : List TeamRow) : List (String × ℚ) :=
  groupByAgg (· ≤ ·) (·.nickname) (fun g => mean (g.map winQ)) df

/-- dashboard.py 616-623: top-10 teams by mean win rate, descending. -/
def teamSuccess (df : List TeamRow) : List (String × ℚ) :=
  (sortByDesc Prod.snd (teamSuccessAll df)).take 10

/-- dashboard.py 645-655: top-10 (season, team) pairs by mean win rate,
labelled `"Nickname (Season)"`. -/
def dominantSeasons (df : List TeamRow) : List (String × ℚ) :=
  ((sortByDesc Prod.snd (perTeamWin df)).take 10).map fun kg =>
    (kg.1.2 ++ " (" ++ toString kg.1.1 ++ ")", kg.2)

/-- One row of `archetype_data` (dashboard.py 683-692) before the derived
`PTS_PER_MIN` column: per-player mean minutes, mean points and game count. -/
structure ArchRow where
  playerName : String
  avgMin : ℚ
  avgPts : ℚ
  gamesPlayed : Nat
  deriving DecidableEq, Repr

/-- dashboard.py 683-692: the per-player aggregation feeding the classifier. -/
def archetypeAgg (df : List PlayerRow) : List ArchRow :=
  (groupByAgg (· ≤ ·) (·.playerName) id df).map fun kg =>
    { playerName := kg.1
      avgMin := mean (kg.2.map (·.minutesPlayed))
      avgPts := mean (kg.2.map (·.pts))
      gamesPlayed := kg.2.length }

/-- dashboard.py 695-698: the noise filter retaining players with at least 30
games and mean minutes at least 8. -/
def archetypeData (df : List PlayerRow) : List ArchRow :=
  (archetypeAgg df).filter fun p => decide (30 ≤ p.gamesPlayed ∧ 8 ≤ p.avgMin)

/-- dashboard.py 701: the derived `PTS_PER_MIN` column. -/
def ptsPerMin (p : ArchRow) : ℚ := p.avgPts / p.avgMin

/-- dashboard.py 701 as the code would read with a division guarded against a
zero denominator: `none` on the error branch. -/
def effOpt (p : ArchRow) : Option ℚ :=
  if p.avgMin = 0 then none else some (p.avgPts / p.avgMin)

/-- dashboard.py 704: median of `AVG_MIN` over the retained population. -/
def usageMedian (df : List PlayerRow) : ℚ := median ((archetypeData df).map (·.avgMin))

/-- dashboard.py 705: median of `PTS_PER_MIN` over the retained population. -/
def effMedian (df : List PlayerRow) : ℚ := median ((archetypeData df).map ptsPerMin)

/-- dashboard.py 708-716: `assign_archetype`. -/
def assignArchetype (um em : ℚ) (p : ArchRow) : String :=
  if um ≤ p.avgMin ∧ em ≤ ptsPerMin p then "High-Usage Stars"
  else if um ≤ p.avgMin ∧ ptsPerMin p < em then "Volume Scorers"
  else if p.avgMin < um ∧ em ≤ ptsPerMin p then "Efficient Role Players"
  else "Low-Impact Bench Players"

/-- The four archetype labels. -/
def archLabels : List String :=
  ["High-Usage Stars", "Volume Scorers", "Efficient Role Players",
    "Low-Impact Bench Players"]

/-- The group of retained players carrying a given label (dashboard.py 718). -/
def archGroup (df : List PlayerRow) (label : String) : List ArchRow :=
  (archetypeData df).filter fun p =>
    decide (assignArchetype (usageMedian df) (effMedian df) p = label)

/-- dashboard.py 781-792 before ranking: per-player mean efficiency score and
game count. -/
def playerSuccessAll (df : List PlayerRow) : List (String × ℚ × Nat) :=
  groupByAgg (· ≤ ·) (·.playerName)
    (fun g => (mean (g.map (·.efficiencyScore)), g.length)) df

/-- dashboard.py 792: the players with at least 100 recorded games. -/
def playerSuccessQualified (df : List PlayerRow) : List (String × ℚ × Nat) :=
  (playerSuccessAll df).filter fun x => decide (100 ≤ x.2.2)

/-- dashboard.py 794-798: top-10 qualified players by mean efficiency. -/
def playerSuccess (df : List PlayerRow) : List (String × ℚ × Nat) :=
  (sortByDesc (fun x => x.2.1) (playerSuccessQualified df)).take 10

/-- dashboard.py 818-824 before ranking: per-player best single-game
efficiency and best single-game points. -/
def topGamesAll (df : List PlayerRow) : List (String × ℚ × ℚ) :=
  groupByAgg (· ≤ ·) (·.playerName)
    (fun g => (listMax (g.map (·.efficiencyScore)), listMax (g.map (·.pts)))) df

/-- dashboard.py 818-827: top-10 best single-game performances per player,
ranked by best efficiency. -/
def topGames (df : List PlayerRow) : List (String × ℚ × ℚ) :=
  (sortByDesc (fun x => x.2.1) (topGamesAll df)).take 10

/-- pandas `Series.idxmax` after the first element: first index (in series
order) whose value is maximal. -/
def idxmaxFrom {κ : Type} (best : κ × ℚ) : List (κ × ℚ) → κ
  | [] => best.1
  | y :: ys => if best.2 < y.2 then idxmaxFrom y ys else idxmaxFrom best ys

/-- pandas `Series.idxmax`: `none` models the `ValueError` raised on an empty
series, which the code's `except` turns into the sentinel. -/
def idxmax {κ : Type} : List (κ × ℚ) → Option κ
  | [] => none
  | x :: xs => some (idxmaxFrom x xs)

/-- dashboard.py 433-436: most-successful-team badge, `"N/A"` when the
computation fails (empty filtered group). -/
def topTeamBadge (df : List TeamRow) : String :=
  match idxmax (teamSuccessAll df) with
  | some t => t
  | none => "N/A"

/-- dashboard.py 439: per-player mean efficiency score. -/
def playerEffMeans (df : List PlayerRow) : List (String × ℚ) :=
  groupByAgg (· ≤ ·) (·.playerName) (fun g => mean (g.map (·.efficiencyScore))) df

/-- dashboard.py 438-441: most-impactful-player badge, `"N/A"` when the
computation fails (empty filtered group). -/
def topPlayerBadge (df : List PlayerRow) : String :=
  match idxmax (playerEffMeans df) with
  | some p => p
  | none => "N/A"

/-- dashboard.py 26-57: the static team (primary, secondary) color table. -/
def TEAM_COLORS : List (String × String × String) :=
  [("Hawks", "#E03A3E", "#C1D32F"),
   ("Celtics", "#007A33", "#BA9653"),
   ("Nets", "#000000", "#FFFFFF"),
   ("Hornets", "#1D1160", "#00788C"),
   ("Bulls", "#CE1141", "#000000"),
   ("Cavaliers", "#860038", "#FDBB30"),
   ("Mavericks", "#00538C", "#B8C4CA"),
   ("Nuggets", "#0E2240", "#FEC524"),
   ("Pistons", "#C8102E", "#1D42BA"),
   ("Warriors", "#1D428A", "#FFC72C"),
   ("Rockets", "#CE1141", "#C4CED4"),
   ("Pacers", "#002D62", "#FDBB30"),
   ("Clippers", "#C8102E", "#1D428A"),
   ("Lakers", "#552583", "#FDB927"),
   ("Grizzlies", "#5D76A9", "#12173F"),
   ("Heat", "#98002E", "#F9A01B"),
   ("Bucks", "#00471B", "#EEE1C6"),
   ("Timberwolves", "#0C2340", "#236192"),
   ("Pelicans", "#0C2340", "#C8102E"),
   ("Knicks", "#006BB6", "#F58426"),
   ("Thunder", "#007AC1", "#EF3B24"),
   ("Magic", "#0077C0", "#C4CED4"),
   ("76ers", "#006BB6", "#ED174C"),
   ("Suns", "#1D1160", "#E56020"),
   ("Trail Blazers", "#E03A3E", "#000000"),
   ("Kings", "#5A2D81", "#63727A"),
   ("Spurs", "#C4CED4", "#000000"),
   ("Raptors", "#CE1141", "#000000"),
   ("Jazz", "#002B5C", "#F9A01B"),
   ("Wizards", "#002B5C", "#E31837")]

/-- dashboard.py 360: the default gray used for unknown teams. -/
def defaultTeamColor : String := "#888888"

/-- The lookup `TEAM_COLORS.get(t)` of dashboard.py 365. -/
def teamColorsLookup (t : String) : Option (String × String) :=
  (TEAM_COLORS.find? fun e => decide (e.1 = t)).map (fun e => e.2)

/-- The distinct nicknames of the filtered team table: the key set of
`team_primary_map`/`team_secondary_map` (dashboard.py 363). -/
def teamNicknames (df : List TeamRow) : List String := (df.map (·.nickname)).dedup

/-- The value `team_primary_map` stores for a nickname present in the filtered
team table (dashboard.py 365-372): the primary color from `TEAM_COLORS` when
known and non-empty, the default gray otherwise. -/
def teamPrimaryVal (t : String) : String :=
  match teamColorsLookup t with
  | some c => if c.1 = "" then defaultTeamColor else c.1
  | none => defaultTeamColor

/-- The value `team_secondary_map` stores (dashboard.py 365-372): the secondary
color when known and non-empty, falling back to the primary, and the default
gray for unknown teams. -/
def teamSecondaryVal (t : String) : String :=
  match teamColorsLookup t with
  | some c => if c.2 = "" then teamPrimaryVal t else c.2
  | none => defaultTeamColor

/-- The lookup `team_primary_map.get(t, dflt)` (dashboard.py 389). -/
def teamPrimaryGet (df : List TeamRow) (t : String) (dflt : String) : String :=
  if t ∈ teamNicknames df then teamPrimaryVal t else dflt

/-- The lookup `team_secondary_map.get(t, dflt)` (dashboard.py 390). -/
def teamSecondaryGet (df : List TeamRow) (t : String) (dflt : String) : String :=
  if t ∈ teamNicknames df then teamSecondaryVal t else dflt

/-- The `NICKNAME` series of one player's group of filtered player rows
(dashboard.py 381-386), in original row order. -/
def playerTeams (df : List PlayerRow) (p : String) : List String :=
  (df.filter fun r => decide (r.playerName = p)).map (·.nickname)

/-- The maximal number of occurrences of any value in the list. -/
def maxCount (l : List String) : Nat :=
  (l.dedup.map fun v => l.count v).foldr max 0

/-- pandas `Series.mode()`: the distinct values of maximal count, in sorted
order. -/
def pandasMode (l : List String) : List String :=
  List.insertionSort (· ≤ ·) (l.dedup.filter fun v => decide (l.count v = maxCount l))

/-- The value `grp["NICKNAME"].mode().iloc[0]` (dashboard.py 386); `none` models the
exception on an empty series, turned into `team_mode = None` by the code. -/
def modeTeam (l : List String) : Option String := (pandasMode l).head?

/-- The entry `player_primary_map[p]` (dashboard.py 389). -/
def playerPrimary (dft : List TeamRow) (dfp : List PlayerRow) (p : String) : String :=
  match modeTeam (playerTeams dfp p) with
  | some t => teamPrimaryGet dft t defaultTeamColor
  | none => defaultTeamColor

/-- The entry `player_secondary_map[p]` (dashboard.py 390). -/
def playerSecondary (dft : List TeamRow) (dfp : List PlayerRow) (p : String) : String :=
  match modeTeam (playerTeams dfp p) with
  | some t => teamSecondaryGet dft t (playerPrimary dft dfp p)
  | none => playerPrimary dft dfp p

/-- The mode selection the claim describes: the first-encountered (original row
order) value among those of maximal count. -/
def claimedModeTeam (l : List String) : Option String :=
  l.find? fun v => decide (l.count v = maxCount l)

/-- The player color resolution the claim describes: the color of the
first-encountered most-frequent team. -/
def claimedPlayerPrimary (dft : List TeamRow) (dfp : List PlayerRow) (p : String) : String :=
  match claimedModeTeam (playerTeams dfp p) with
  | some t => teamPrimaryGet dft t defaultTeamColor
  | none => defaultTeamColor

/-- A one-row team table: a single home loss (used as concrete input). -/
def exTeamHomeLoss : List TeamRow :=
  [⟨2004, "Lakers", "West", 1, 95, false, "Home", -5⟩]

/-- A one-row team table: one game, hence one game in its single
(season, team) group (used as concrete input). -/
def exTeamOneGame : List TeamRow :=
  [⟨2004, "Lakers", "West", 1, 100, true, "Home", 5⟩]

/-- A three-row team table over one season, teams "Bulls" (two wins) and
"Lakers" (one loss): per-team mean win rates 1 and 0, median 1/2, while the
raw per-season mean of the win flag is 2/3 (used as concrete input). -/
def exTeamParity : List TeamRow :=
  [⟨2004, "Bulls", "East", 1, 100, true, "Home", 5⟩,
   ⟨2004, "Bulls", "East", 2, 98, true, "Away", 3⟩,
   ⟨2004, "Lakers", "West", 1, 95, false, "Away", -5⟩]

/-- A two-row team table containing the Warriors and the Bulls (used as
concrete input for the color resolver). -/
def exTeamColors : List TeamRow :=
  [⟨2004, "Warriors", "West", 1, 100, true, "Home", 5⟩,
   ⟨2004, "Bulls", "East", 2, 90, false, "Away", -5⟩]

/-- A two-row player table for player "X": one Warriors row first, then one
Bulls row — the two teams are tied for most frequent (used as concrete
input for the color resolver). -/
def exPlayerColors : List PlayerRow :=
  [⟨2004, "X", "Warriors", 10, 10, 5, 1⟩,
   ⟨2004, "X", "Bulls", 10, 10, 5, 2⟩]

/-- A player table in which player "A" has 30 identical rows: 30 games, mean
minutes 10, mean points 5 (used as concrete input for the classifier). -/
def exPlayerArch : List PlayerRow :=
  List.replicate 30 ⟨2004, "A", "Hawks", 10, 5, 3, 1⟩

/-- A pair of selections differing only in the player set (used as concrete
input). -/
def exSelWithPlayer : FilterSelection := ⟨[2004], ["Lakers"], ["X"]⟩

/-- The same selection with no player constraint (used as concrete input). -/
def exSelNoPlayer : FilterSelection := ⟨[2004], ["Lakers"], []⟩

end Statistella

namespace Statistella

theorem filterTeamTable_eq_filter (sel : FilterSelection) (t : List TeamRow) :
    filterTeamTable sel t = t.filter (fun r => decide (teamRowMatches sel r)) := by
  unfold filterTeamTable teamRowMatches
  by_cases hs : sel.seasons = [] <;> by_cases ht : sel.teams = [] <;>
    simp only [hs, ht, if_true, if_false, ite_true, ite_false, eq_self_iff_true,
      List.filter_filter] <;>
    first
      | (symm; rw [List.filter_eq_self]; intro a ha; simp [hs, ht])
      | (apply List.filter_congr; intro x hx; simp [hs, ht, Bool.and_comm, Bool.and_assoc, Bool.and_left_comm])

theorem filterPlayerTable_eq_filter (sel : FilterSelection) (p : List PlayerRow) :
    filterPlayerTable sel p = p.filter (fun r => decide (playerRowMatches sel r)) := by
  unfold filterPlayerTable playerRowMatches
  by_cases hs : sel.seasons = [] <;> by_cases ht : sel.teams = [] <;>
    by_cases hp : sel.players = [] <;>
    simp only [hs, ht, hp, if_true, if_false, ite_true, ite_false, eq_self_iff_true,
      List.filter_filter] <;>
    first
      | (symm; rw [List.filter_eq_self]; intro a ha; simp [hs, ht, hp])
      | (apply List.filter_congr; intro x hx; simp [hs, ht, hp, Bool.and_comm, Bool.and_assoc, Bool.and_left_comm])

/-- C7: for every `FilterSelection` and every pair of base tables, applying the
row filter twice with the same selection equals applying it once (idempotence),
and a row is retained iff it matches every provided constraint, where a
constraint with no values is a no-op (the `teamRowMatches`/`playerRowMatches`
predicates make each empty constraint an always-true disjunct). -/
theorem C7_filter_idempotent_noop (sel : FilterSelection)
    (t : List TeamRow) (p : List PlayerRow) :
    filterTeamTable sel (filterTeamTable sel t) = filterTeamTable sel t ∧
    filterPlayerTable sel (filterPlayerTable sel p) = filterPlayerTable sel p ∧
    filterTeamTable sel t = t.filter (fun r => decide (teamRowMatches sel r)) ∧
    filterPlayerTable sel p = p.filter (fun r => decide (playerRowMatches sel r)) := by
  refine ⟨?_, ?_, filterTeamTable_eq_filter sel t, filterPlayerTable_eq_filter sel p⟩
  · rw [filterTeamTable_eq_filter, filterTeamTable_eq_filter,
      List.filter_filter]
    apply List.filter_congr
    intro x _
    simp
  · rw [filterPlayerTable_eq_filter, filterPlayerTable_eq_filter,
      List.filter_filter]
    apply List.filter_congr
    intro x _
    simp

theorem insertionSort_eq_nil_iff {α : Type} (r : α → α → Prop) [DecidableRel r]
    {l : List α} : List.insertionSort r l = [] ↔ l = [] := by
  constructor
  · intro h
    have hl := (List.perm_insertionSort r l).length_eq
    rw [h] at hl
    exact List.length_eq_zero.mp hl.symm
  · rintro rfl
    rfl

theorem sortedKeys_eq_nil_iff {κ : Type} (le : κ → κ → Prop) [DecidableRel le]
    [DecidableEq κ] {l : List κ} : sortedKeys le l = [] ↔ l = [] := by
  unfold sortedKeys
  rw [insertionSort_eq_nil_iff, List.dedup_eq_nil]

theorem mem_sortedKeys {κ : Type} {le : κ → κ → Prop} [DecidableRel le]
    [DecidableEq κ] {l : List κ} {a : κ} : a ∈ sortedKeys le l ↔ a ∈ l := by
  unfold sortedKeys
  rw [List.mem_insertionSort, List.mem_dedup]

theorem groupByAgg_eq_nil_iff {κ α β : Type} (le : κ → κ → Prop) [DecidableRel le]
    [DecidableEq κ] (key : α → κ) (agg : List α → β) {l : List α} :
    groupByAgg le key agg l = [] ↔ l = [] := by
  unfold groupByAgg
  rw [List.map_eq_nil_iff, sortedKeys_eq_nil_iff, List.map_eq_nil_iff]

theorem mem_groupByAgg {κ α β : Type} {le : κ → κ → Prop} [DecidableRel le]
    [DecidableEq κ] {key : α → κ} {agg : List α → β} {l : List α} {x : κ × β} :
    x ∈ groupByAgg le key agg l ↔
      x.1 ∈ l.map key ∧ x.2 = agg (l.filter fun r => decide (key r = x.1)) := by
  unfold groupByAgg
  constructor
  · intro hx
    rcases List.mem_map.mp hx with ⟨k, hk, rfl⟩
    exact ⟨mem_sortedKeys.mp hk, rfl⟩
  · rintro ⟨h1, h2⟩
    rcases x with ⟨a, b⟩
    apply List.mem_map.mpr
    refine ⟨a, mem_sortedKeys.mpr h1, ?_⟩
    simp only at h2
    rw [← h2]

theorem mean_nonneg {l : List ℚ} (h : ∀ x ∈ l, 0 ≤ x) : 0 ≤ mean l := by
  unfold mean
  exact div_nonneg (List.sum_nonneg h) (Nat.cast_nonneg _)

theorem mean_le_one {l : List ℚ} (h : ∀ x ∈ l, x ≤ 1) : mean l ≤ 1 := by
  unfold mean
  rcases eq_or_ne l [] with rfl | hne
  · simp
  · have hl : (0 : ℚ) < l.length := by
      exact_mod_cast List.length_pos.mpr hne
    rw [div_le_one hl]
    calc l.sum ≤ l.length • (1 : ℚ) := List.sum_le_card_nsmul l 1 h
    _ = l.length := by simp

theorem sum_eq_zero_iff_of_nonneg {l : List ℚ} (h : ∀ x ∈ l, 0 ≤ x) :
    l.sum = 0 ↔ ∀ x ∈ l, x = 0 := by
  induction l with
  | nil => simp
  | cons a t ih =>
    have ha : 0 ≤ a := h a (List.mem_cons_self a t)
    have ht : ∀ x ∈ t, 0 ≤ x := fun x hx => h x (List.mem_cons_of_mem a hx)
    have hts : 0 ≤ t.sum := List.sum_nonneg ht
    rw [List.sum_cons]
    constructor
    · intro h0
      have ha0 : a = 0 := le_antisymm (by linarith) ha
      have hts0 : t.sum = 0 := by linarith
      intro x hx
      rcases List.mem_cons.mp hx with rfl | hx
      · exact ha0
      · exact (ih ht).mp hts0 x hx
    · intro hall
      rw [hall a (List.mem_cons_self a t),
        (ih ht).mpr fun x hx => hall x (List.mem_cons_of_mem a hx), add_zero]

theorem mean_eq_zero_iff {l : List ℚ} (h : ∀ x ∈ l, 0 ≤ x) :
    mean l = 0 ↔ ∀ x ∈ l, x = 0 := by
  unfold mean
  rcases eq_or_ne l [] with rfl | hne
  · simp
  · have hl : (0 : ℚ) < l.length := by
      exact_mod_cast List.length_pos.mpr hne
    rw [div_eq_zero_iff]
    constructor
    · rintro (hs | hs)
      · exact (sum_eq_zero_iff_of_nonneg h).mp hs
      · exact absurd hs (ne_of_gt hl)
    · intro hall
      exact Or.inl ((sum_eq_zero_iff_of_nonneg h).mpr hall)

theorem winQ_nonneg (r : TeamRow) : 0 ≤ winQ r := by
  unfold winQ; split <;> norm_num

theorem winQ_le_one (r : TeamRow) : winQ r ≤ 1 := by
  unfold winQ; split <;> norm_num

theorem winQ_eq_zero_iff (r : TeamRow) : winQ r = 0 ↔ r.win = false := by
  unfold winQ
  cases h : r.win <;> simp

/-- C8: the two badge computations each return the sentinel `"N/A"` whenever
the underlying `idxmax` computation fails, which happens exactly on an empty
aggregated group (for example when the filtered table is empty); being total
Lean functions, they never raise. -/
theorem C8_badges_na (dft : List TeamRow) (dfp : List PlayerRow)
    (h1 : teamSuccessAll dft = []) (h2 : playerEffMeans dfp = []) :
    topTeamBadge dft = "N/A" ∧ topPlayerBadge dfp = "N/A" := by
  constructor
  · unfold topTeamBadge
    rw [h1]
    rfl
  · unfold topPlayerBadge
    rw [h2]
    rfl

/-- Witness for C8 at the empty filtered tables. -/
theorem C8_badges_na_witness :
    teamSuccessAll ([] : List TeamRow) = [] ∧
    playerEffMeans ([] : List PlayerRow) = [] ∧
    topTeamBadge ([] : List TeamRow) = "N/A" ∧
    topPlayerBadge ([] : List PlayerRow) = "N/A" := by
  have h := C8_badges_na [] [] rfl rfl
  exact ⟨rfl, rfl, h.1, h.2⟩

/-- C10: every row of the filtered classifier population has mean minutes at
least 8, hence a strictly positive denominator, so a division guarded against
zero denominators takes its defined branch and agrees with `PTS_PER_MIN`. -/
theorem C10_eff_denominator_positive (df : List PlayerRow) (p : ArchRow)
    (hp : p ∈ archetypeData df) :
    0 < p.avgMin ∧ effOpt p = some (ptsPerMin p) := by
  have h8 : 8 ≤ p.avgMin := by
    unfold archetypeData at hp
    rcases List.mem_filter.mp hp with ⟨-, hcond⟩
    exact (of_decide_eq_true hcond).2
  have hpos : 0 < p.avgMin := lt_of_lt_of_le (by norm_num) h8
  refine ⟨hpos, ?_⟩
  unfold effOpt ptsPerMin
  rw [if_neg (ne_of_gt hpos)]

set_option maxRecDepth 100000 in
theorem exArch_mem : (⟨"A", 10, 5, 30⟩ : ArchRow) ∈ archetypeData exPlayerArch := by
  with_unfolding_all decide

/-- Witness for C10 at a table whose single player is retained. -/
theorem C10_witness :
    (⟨"A", 10, 5, 30⟩ : ArchRow) ∈ archetypeData exPlayerArch ∧
    0 < (⟨"A", 10, 5, 30⟩ : ArchRow).avgMin ∧
    effOpt ⟨"A", 10, 5, 30⟩ = some (ptsPerMin ⟨"A", 10, 5, 30⟩) := by
  have h := C10_eff_denominator_positive exPlayerArch _ exArch_mem
  exact ⟨exArch_mem, h.1, h.2⟩

/-- C3 counterexample: a filtered table consisting of one home loss has home
win rate `0` although a `"Home"` row exists, refuting "equals 0 exactly when
no Home rows exist". -/
theorem C3_counterexample :
    homeWinRate exTeamHomeLoss = 0 ∧ homeRows exTeamHomeLoss ≠ [] := by
  with_unfolding_all decide

/-- C3 (amended): the home-win-rate KPI is the percentage of wins among rows
flagged `"Home"`, always lies in `[0, 100]`, equals `0` whenever no `"Home"`
row exists, and more precisely equals `0` exactly when the `"Home"` rows
contain no win. -/
theorem C3_home_win_rate_bounds (df : List TeamRow) :
    (0 ≤ homeWinRate df ∧ homeWinRate df ≤ 100) ∧
    (homeRows df = [] → homeWinRate df = 0) ∧
    (homeWinRate df = 0 ↔ ∀ r ∈ homeRows df, r.win = false) := by
  have hnn : ∀ x ∈ (homeRows df).map winQ, 0 ≤ x := by
    intro x hx
    rcases List.mem_map.mp hx with ⟨r, -, rfl⟩
    exact winQ_nonneg r
  have hle : ∀ x ∈ (homeRows df).map winQ, x ≤ 1 := by
    intro x hx
    rcases List.mem_map.mp hx with ⟨r, -, rfl⟩
    exact winQ_le_one r
  by_cases hh : homeRows df = []
  · unfold homeWinRate
    rw [if_pos hh]
    refine ⟨⟨le_refl 0, by norm_num⟩, fun _ => rfl, ?_⟩
    simp [hh]
  · unfold homeWinRate
    rw [if_neg hh]
    have h0 := mean_nonneg hnn
    have h1 := mean_le_one hle
    refine ⟨⟨by linarith, by linarith⟩, fun habs => absurd habs hh, ?_⟩
    rw [mul_eq_zero]
    constructor
    · rintro (hm | habs)
      · intro r hr
        have := (mean_eq_zero_iff hnn).mp hm (winQ r) (List.mem_map_of_mem winQ hr)
        exact (winQ_eq_zero_iff r).mp this
      · norm_num at habs
    · intro hall
      refine Or.inl ((mean_eq_zero_iff hnn).mpr ?_)
      intro x hx
      rcases List.mem_map.mp hx with ⟨r, hr, rfl⟩
      exact (winQ_eq_zero_iff r).mpr (hall r hr)

/-- Witness for C3 (amended) at the one-home-loss table. -/
theorem C3_witness :
    0 ≤ homeWinRate exTeamHomeLoss ∧ homeWinRate exTeamHomeLoss ≤ 100 ∧
    homeWinRate exTeamHomeLoss = 0 := by
  have h := C3_home_win_rate_bounds exTeamHomeLoss
  exact ⟨h.1.1, h.1.2, (h.2.2).mpr (by decide)⟩

theorem perTeamVar_snd_none {df : List TeamRow} (h : oneGamePerGroup df) :
    ∀ y ∈ perTeamVar df, y.2 = none := by
  intro y hy
  rcases mem_groupByAgg.mp hy with ⟨-, h2⟩
  rw [h2]
  unfold sampleVar
  rw [if_pos]
  rw [List.length_map]
  exact Nat.lt_of_le_of_lt (h y.1) (by norm_num)

/-- C2 (amended): on a filtered team table in which every (season, team) group
has at most one game, every per-season consistency median is the undefined
value (NaN, modelled `none`) — so the aggregated frame has one all-NaN row per
season rather than being empty — and the "no data" message is emitted exactly
when the filtered team table itself is empty. -/
theorem C2_consistency_amended (df : List TeamRow) (h : oneGamePerGroup df) :
    (consistencySeries df = [] ↔ df = []) ∧
    (consistencyMsg df = "No data for selected filters" ↔ df = []) ∧
    (∀ x ∈ consistencySeries df, x.2 = none) := by
  have hempty : consistencySeries df = [] ↔ df = [] := by
    unfold consistencySeries perTeamVar
    rw [groupByAgg_eq_nil_iff, groupByAgg_eq_nil_iff]
  have hnone : ∀ x ∈ consistencySeries df, x.2 = none := by
    intro x hx
    rcases mem_groupByAgg.mp hx with ⟨-, h2⟩
    rw [h2]
    unfold medianSkipNA
    rw [if_pos]
    rw [List.filterMap_eq_nil_iff]
    intro a ha
    rcases List.mem_map.mp ha with ⟨y, hy, rfl⟩
    exact perTeamVar_snd_none h y (List.mem_filter.mp hy).1
  refine ⟨hempty, ?_, hnone⟩
  unfold consistencyMsg
  by_cases hc : consistencySeries df = []
  · rw [if_pos hc]
    simp [hempty.mp hc]
  · rw [if_neg hc]
    constructor
    · intro habs
      exact absurd habs (by decide)
    · intro hdf
      exact absurd (hempty.mpr hdf) hc

/-- C2 counterexample: a nonempty filtered team table whose single
(season, team) group holds exactly one game. The consistency aggregation is
nonempty (one row, with an undefined value) and the message output is the
empty string, not the "no data" message the claim requires. -/
theorem C2_counterexample :
    oneGamePerGroup exTeamOneGame ∧
    consistencySeries exTeamOneGame ≠ [] ∧
    consistencyMsg exTeamOneGame = "" := by
  refine ⟨fun k => List.length_filter_le _ _, ?_, ?_⟩
  · with_unfolding_all decide
  · with_unfolding_all decide

/-- Witness for C2 (amended) at the one-game table. -/
theorem C2_witness :
    oneGamePerGroup exTeamOneGame ∧
    ((consistencySeries exTeamOneGame = [] ↔ exTeamOneGame = []) ∧
      (consistencyMsg exTeamOneGame = "No data for selected filters" ↔
        exTeamOneGame = []) ∧
      (∀ x ∈ consistencySeries exTeamOneGame, x.2 = none)) := by
  have h : oneGamePerGroup exTeamOneGame := fun k => List.length_filter_le _ _
  exact ⟨h, C2_consistency_amended exTeamOneGame h⟩

theorem sortByDesc_sorted {α : Type} (key : α → ℚ) (l : List α) :
    (sortByDesc key l).Pairwise (fun a b => key b ≤ key a) := by
  haveI : IsTotal α (fun a b => key b ≤ key a) := ⟨fun a b => le_total (key b) (key a)⟩
  haveI : IsTrans α (fun a b => key b ≤ key a) := ⟨fun a b c hab hbc => le_trans hbc hab⟩
  exact List.sorted_insertionSort _ l

theorem topn_spec {α : Type} (key : α → ℚ) (l : List α) (n : Nat) :
    ((sortByDesc key l).take n).length ≤ n ∧
    ((sortByDesc key l).take n).Pairwise (fun a b => key b ≤ key a) ∧
    (l.length ≤ n → ((sortByDesc key l).take n).Perm l) := by
  refine ⟨List.length_take_le n _, ?_, ?_⟩
  · exact List.Pairwise.sublist (List.take_sublist n _) (sortByDesc_sorted key l)
  · intro h
    have hlen : (sortByDesc key l).length = l.length :=
      (List.perm_insertionSort _ l).length_eq
    rw [List.take_of_length_le (by rw [hlen]; exact h)]
    exact List.perm_insertionSort _ l

/-- C6: each of the three top-N aggregations (top-10 teams by mean win rate,
top-10 players by mean efficiency among those with at least 100 games, top-10
best single-game performances per player) returns at most 10 rows, sorted
descending by its stated metric, and returns all qualifying rows (up to
order — pandas' unstable sort fixes no order among ties) whenever at most 10
rows qualify. -/
theorem C6_topn_aggregations (dft : List TeamRow) (dfp : List PlayerRow) :
    ((teamSuccess dft).length ≤ 10 ∧
      (teamSuccess dft).Pairwise (fun a b => b.2 ≤ a.2) ∧
      ((teamSuccessAll dft).length ≤ 10 →
        (teamSuccess dft).Perm (teamSuccessAll dft))) ∧
    ((playerSuccess dfp).length ≤ 10 ∧
      (playerSuccess dfp).Pairwise (fun a b => b.2.1 ≤ a.2.1) ∧
      ((playerSuccessQualified dfp).length ≤ 10 →
        (playerSuccess dfp).Perm (playerSuccessQualified dfp))) ∧
    ((topGames dfp).length ≤ 10 ∧
      (topGames dfp).Pairwise (fun a b => b.2.1 ≤ a.2.1) ∧
      ((topGamesAll dfp).length ≤ 10 → (topGames dfp).Perm (topGamesAll dfp))) := by
  refine ⟨?_, ?_, ?_⟩
  · exact topn_spec Prod.snd (teamSuccessAll dft) 10
  · exact topn_spec (fun x : String × ℚ × Nat => x.2.1) (playerSuccessQualified dfp) 10
  · exact topn_spec (fun x : String × ℚ × ℚ => x.2.1) (topGamesAll dfp) 10

/-- Witness for C6 at small concrete tables (fewer than 10 qualifying rows, so
the all-rows conclusion is exercised). -/
theorem C6_witness :
    (teamSuccessAll exTeamParity).length ≤ 10 ∧
    (teamSuccess exTeamParity).Perm (teamSuccessAll exTeamParity) ∧
    (topGamesAll exPlayerColors).length ≤ 10 ∧
    (topGames exPlayerColors).Perm (topGamesAll exPlayerColors) := by
  have h := C6_topn_aggregations exTeamParity exPlayerColors
  exact ⟨by with_unfolding_all decide, h.1.2.2 (by with_unfolding_all decide),
    by with_unfolding_all decide, h.2.2.2.2 (by with_unfolding_all decide)⟩

/-- C9: two selections with the same seasons and teams but different player
sets filter the team table identically, so every output derived from the
filtered team table — the total-games, average-points and home-win-rate KPIs,
the season scoring trend, league parity, the home/away trend, team-vs-league,
conference and consistency aggregations (with the consistency message), the
top-10 teams and top-10 dominant seasons, and the most-successful-team
badge — is identical for the two runs. -/
theorem C9_player_filter_noninterference (sel1 sel2 : FilterSelection)
    (t : List TeamRow) (hs : sel1.seasons = sel2.seasons)
    (ht : sel1.teams = sel2.teams) :
    filterTeamTable sel1 t = filterTeamTable sel2 t ∧
    totalGames (filterTeamTable sel1 t) = totalGames (filterTeamTable sel2 t) ∧
    avgPts (filterTeamTable sel1 t) = avgPts (filterTeamTable sel2 t) ∧
    homeWinRate (filterTeamTable sel1 t) = homeWinRate (filterTeamTable sel2 t) ∧
    seasonScoring (filterTeamTable sel1 t) = seasonScoring (filterTeamTable sel2 t) ∧
    parity (filterTeamTable sel1 t) = parity (filterTeamTable sel2 t) ∧
    homeAwayTrend (filterTeamTable sel1 t) = homeAwayTrend (filterTeamTable sel2 t) ∧
    teamAvgSeries (filterTeamTable sel1 t) = teamAvgSeries (filterTeamTable sel2 t) ∧
    confSeries (filterTeamTable sel1 t) = confSeries (filterTeamTable sel2 t) ∧
    consistencySeries (filterTeamTable sel1 t) =
      consistencySeries (filterTeamTable sel2 t) ∧
    consistencyMsg (filterTeamTable sel1 t) = consistencyMsg (filterTeamTable sel2 t) ∧
    teamSuccess (filterTeamTable sel1 t) = teamSuccess (filterTeamTable sel2 t) ∧
    dominantSeasons (filterTeamTable sel1 t) =
      dominantSeasons (filterTeamTable sel2 t) ∧
    topTeamBadge (filterTeamTable sel1 t) = topTeamBadge (filterTeamTable sel2 t) := by
  have h : filterTeamTable sel1 t = filterTeamTable sel2 t := by
    unfold filterTeamTable
    rw [hs, ht]
  exact ⟨h, by rw [h], by rw [h], by rw [h], by rw [h], by rw [h], by rw [h],
    by rw [h], by rw [h], by rw [h], by rw [h], by rw [h], by rw [h], by rw [h]⟩

theorem assignArchetype_iff (um em : ℚ) (p : ArchRow) :
    (assignArchetype um em p = "High-Usage Stars" ↔
      um ≤ p.avgMin ∧ em ≤ ptsPerMin p) ∧
    (assignArchetype um em p = "Volume Scorers" ↔
      um ≤ p.avgMin ∧ ptsPerMin p < em) ∧
    (assignArchetype um em p = "Efficient Role Players" ↔
      p.avgMin < um ∧ em ≤ ptsPerMin p) ∧
    (assignArchetype um em p = "Low-Impact Bench Players" ↔
      p.avgMin < um ∧ ptsPerMin p < em) := by
  by_cases h1 : um ≤ p.avgMin <;> by_cases h2 : em ≤ ptsPerMin p
  · have e : assignArchetype um em p = "High-Usage Stars" := by
      unfold assignArchetype
      rw [if_pos ⟨h1, h2⟩]
    rw [e]
    exact ⟨iff_of_true rfl ⟨h1, h2⟩,
      iff_of_false (by decide) fun hc => absurd hc.2 (not_lt.mpr h2),
      iff_of_false (by decide) fun hc => absurd hc.1 (not_lt.mpr h1),
      iff_of_false (by decide) fun hc => absurd hc.1 (not_lt.mpr h1)⟩
  · have hlt : ptsPerMin p < em := not_le.mp h2
    have e : assignArchetype um em p = "Volume Scorers" := by
      unfold assignArchetype
      rw [if_neg fun hc => h2 hc.2, if_pos ⟨h1, hlt⟩]
    rw [e]
    exact ⟨iff_of_false (by decide) fun hc => h2 hc.2,
      iff_of_true rfl ⟨h1, hlt⟩,
      iff_of_false (by decide) fun hc => absurd hc.1 (not_lt.mpr h1),
      iff_of_false (by decide) fun hc => absurd hc.1 (not_lt.mpr h1)⟩
  · have hlt : p.avgMin < um := not_le.mp h1
    have e : assignArchetype um em p = "Efficient Role Players" := by
      unfold assignArchetype
      rw [if_neg fun hc => h1 hc.1, if_neg fun hc => h1 hc.1, if_pos ⟨hlt, h2⟩]
    rw [e]
    exact ⟨iff_of_false (by decide) fun hc => h1 hc.1,
      iff_of_false (by decide) fun hc => h1 hc.1,
      iff_of_true rfl ⟨hlt, h2⟩,
      iff_of_false (by decide) fun hc => absurd hc.2 (not_lt.mpr h2)⟩
  · have hlt1 : p.avgMin < um := not_le.mp h1
    have hlt2 : ptsPerMin p < em := not_le.mp h2
    have e : assignArchetype um em p = "Low-Impact Bench Players" := by
      unfold assignArchetype
      rw [if_neg fun hc => h1 hc.1, if_neg fun hc => h1 hc.1,
        if_neg fun hc => h2 hc.2]
    rw [e]
    exact ⟨iff_of_false (by decide) fun hc => h1 hc.1,
      iff_of_false (by decide) fun hc => h1 hc.1,
      iff_of_false (by decide) fun hc => h2 hc.2,
      iff_of_true rfl ⟨hlt1, hlt2⟩⟩

theorem assignArchetype_mem_labels (um em : ℚ) (p : ArchRow) :
    assignArchetype um em p ∈ archLabels := by
  unfold assignArchetype
  split_ifs <;> simp [archLabels]

theorem mem_archetypeData {df : List PlayerRow} {p : ArchRow} :
    p ∈ archetypeData df ↔
      p ∈ archetypeAgg df ∧ 30 ≤ p.gamesPlayed ∧ 8 ≤ p.avgMin := by
  unfold archetypeData
  rw [List.mem_filter, decide_eq_true_eq]

/-- C1: the classifier population consists exactly of the players with at
least 30 games and mean minutes at least 8; efficiency is mean points divided
by mean minutes; each of the four labels is assigned iff the corresponding
two median comparisons hold, ties going to the `≥` branch; and the four label
groups cover the retained population with no overlap. -/
theorem C1_archetype_partition (df : List PlayerRow) :
    (∀ p, p ∈ archetypeData df ↔
      p ∈ archetypeAgg df ∧ 30 ≤ p.gamesPlayed ∧ 8 ≤ p.avgMin) ∧
    (∀ p ∈ archetypeData df, ptsPerMin p = p.avgPts / p.avgMin) ∧
    (∀ p ∈ archetypeData df,
      (assignArchetype (usageMedian df) (effMedian df) p = "High-Usage Stars" ↔
        usageMedian df ≤ p.avgMin ∧ effMedian df ≤ ptsPerMin p) ∧
      (assignArchetype (usageMedian df) (effMedian df) p = "Volume Scorers" ↔
        usageMedian df ≤ p.avgMin ∧ ptsPerMin p < effMedian df) ∧
      (assignArchetype (usageMedian df) (effMedian df) p = "Efficient Role Players" ↔
        p.avgMin < usageMedian df ∧ effMedian df ≤ ptsPerMin p) ∧
      (assignArchetype (usageMedian df) (effMedian df) p = "Low-Impact Bench Players" ↔
        p.avgMin < usageMedian df ∧ ptsPerMin p < effMedian df)) ∧
    (∀ p ∈ archetypeData df,
      assignArchetype (usageMedian df) (effMedian df) p ∈ archLabels ∧
      p ∈ archGroup df (assignArchetype (usageMedian df) (effMedian df) p)) ∧
    (∀ l1 ∈ archLabels, ∀ l2 ∈ archLabels, l1 ≠ l2 →
      ∀ p, p ∈ archGroup df l1 → p ∉ archGroup df l2) := by
  refine ⟨fun p => mem_archetypeData, fun p _ => rfl,
    fun p _ => assignArchetype_iff _ _ p, ?_, ?_⟩
  · intro p hp
    refine ⟨assignArchetype_mem_labels _ _ p, ?_⟩
    unfold archGroup
    rw [List.mem_filter]
    exact ⟨hp, by simp⟩
  · intro l1 _ l2 _ hne p hp1 hp2
    unfold archGroup at hp1 hp2
    rw [List.mem_filter, decide_eq_true_eq] at hp1 hp2
    exact hne (hp1.2.symm.trans hp2.2)

/-- Witness for C1 at a table whose single player is retained. -/
theorem C1_witness :
    (⟨"A", 10, 5, 30⟩ : ArchRow) ∈ archetypeData exPlayerArch ∧
    assignArchetype (usageMedian exPlayerArch) (effMedian exPlayerArch)
      ⟨"A", 10, 5, 30⟩ ∈ archLabels ∧
    (⟨"A", 10, 5, 30⟩ : ArchRow) ∈ archGroup exPlayerArch
      (assignArchetype (usageMedian exPlayerArch) (effMedian exPlayerArch)
        ⟨"A", 10, 5, 30⟩) := by
  have h := (C1_archetype_partition exPlayerArch).2.2.2.1 _ exArch_mem
  exact ⟨exArch_mem, h.1, h.2⟩

theorem foldr_max_mem (xs : List Nat) (h : xs ≠ []) : xs.foldr max 0 ∈ xs := by
  induction xs with
  | nil => exact absurd rfl h
  | cons x t ih =>
    rw [List.foldr_cons]
    rcases eq_or_ne t [] with rfl | ht
    · simp
    · rcases max_choice x (t.foldr max 0) with h1 | h1 <;> rw [h1]
      · exact List.mem_cons_self x t
      · exact List.mem_cons_of_mem x (ih ht)

theorem le_foldr_max (xs : List Nat) : ∀ x ∈ xs, x ≤ xs.foldr max 0 := by
  induction xs with
  | nil => simp
  | cons a t ih =>
    intro x hx
    rw [List.foldr_cons]
    rcases List.mem_cons.mp hx with rfl | hx
    · exact le_max_left _ _
    · exact le_trans (ih x hx) (le_max_right _ _)

theorem count_le_maxCount {l : List String} {w : String} (hw : w ∈ l) :
    l.count w ≤ maxCount l := by
  unfold maxCount
  apply le_foldr_max
  exact List.mem_map_of_mem _ (List.mem_dedup.mpr hw)

theorem maxCount_attained {l : List String} (h : l ≠ []) :
    ∃ v ∈ l.dedup, l.count v = maxCount l := by
  have hd : l.dedup ≠ [] := by rwa [ne_eq, List.dedup_eq_nil]
  have hm : (l.dedup.map fun v => l.count v) ≠ [] := by
    simpa using hd
  have hmem := foldr_max_mem _ hm
  rcases List.mem_map.mp hmem with ⟨v, hv, hc⟩
  exact ⟨v, hv, hc⟩

/-- The function `modeTeam` returns the lexicographically smallest among the values of
maximal count of a nonempty list: this is what pandas `mode().iloc[0]`
computes, since `Series.mode()` returns the modes sorted ascending. -/
theorem modeTeam_spec {l : List String} (h : l ≠ []) :
    ∃ t, modeTeam l = some t ∧ t ∈ l ∧
      (∀ w ∈ l, l.count w ≤ l.count t) ∧
      (∀ w ∈ l, l.count w = l.count t → t ≤ w) := by
  unfold modeTeam pandasMode
  set fl := l.dedup.filter (fun v => decide (l.count v = maxCount l)) with hfl
  have hfl_ne : fl ≠ [] := by
    rcases maxCount_attained h with ⟨v, hv, hc⟩
    intro habs
    have hvfl : v ∈ fl := by
      rw [hfl]
      exact List.mem_filter.mpr ⟨hv, by simp [hc]⟩
    rw [habs] at hvfl
    exact absurd hvfl (List.not_mem_nil v)
  have hs_ne : List.insertionSort (· ≤ ·) fl ≠ [] := by
    rwa [ne_eq, insertionSort_eq_nil_iff]
  rcases List.exists_cons_of_ne_nil hs_ne with ⟨t, rest, he⟩
  rw [he]
  have htfl : t ∈ fl := by
    have hts : t ∈ List.insertionSort (· ≤ ·) fl := by
      rw [he]
      exact List.mem_cons_self t rest
    rwa [List.mem_insertionSort] at hts
  have htd := List.mem_filter.mp htfl
  have htcount : l.count t = maxCount l := by simpa using htd.2
  have hsorted : (t :: rest).Pairwise (· ≤ · : String → String → Prop) := by
    have hps := List.sorted_insertionSort (· ≤ · : String → String → Prop) fl
    rw [he] at hps
    exact hps
  refine ⟨t, rfl, List.mem_dedup.mp htd.1, ?_, ?_⟩
  · intro w hw
    rw [htcount]
    exact count_le_maxCount hw
  · intro w hw hcw
    have hwfl : w ∈ fl := by
      rw [hfl]
      refine List.mem_filter.mpr ⟨List.mem_dedup.mpr hw, by simp [hcw, htcount]⟩
    have hwmem : w ∈ t :: rest := by
      rw [← he, List.mem_insertionSort]
      exact hwfl
    rcases List.mem_cons.mp hwmem with rfl | hwr
    · exact le_refl w
    · exact (List.pairwise_cons.mp hsorted).1 w hwr

/-- C4 counterexample: player "X" has one Warriors row (first) and one Bulls
row — a tie for most frequent team. The code resolves the tie to the
lexicographically smallest mode ("Bulls", pandas sorts modes), not to the
first-encountered team ("Warriors"), and the resulting primary colors
differ. -/
theorem C4_counterexample :
    modeTeam (playerTeams exPlayerColors "X") = some "Bulls" ∧
    claimedModeTeam (playerTeams exPlayerColors "X") = some "Warriors" ∧
    playerPrimary exTeamColors exPlayerColors "X" = "#CE1141" ∧
    claimedPlayerPrimary exTeamColors exPlayerColors "X" = "#1D428A" ∧
    playerPrimary exTeamColors exPlayerColors "X" ≠
      claimedPlayerPrimary exTeamColors exPlayerColors "X" := by
  with_unfolding_all decide

/-- C4 (amended): the resolver maps each player to the color pair (through the
filtered team table's color maps, defaulting for unknown teams) of the
player's most frequently occurring team among the player's filtered rows, and
when two or more teams are tied for most frequent, the lexicographically
smallest team name wins (pandas returns the modes sorted). -/
theorem C4_color_resolver_amended (dft : List TeamRow) (dfp : List PlayerRow)
    (p : String) (hne : playerTeams dfp p ≠ []) :
    ∃ t, modeTeam (playerTeams dfp p) = some t ∧
      t ∈ playerTeams dfp p ∧
      (∀ w ∈ playerTeams dfp p,
        (playerTeams dfp p).count w ≤ (playerTeams dfp p).count t) ∧
      (∀ w ∈ playerTeams dfp p,
        (playerTeams dfp p).count w = (playerTeams dfp p).count t → t ≤ w) ∧
      playerPrimary dft dfp p = teamPrimaryGet dft t defaultTeamColor ∧
      playerSecondary dft dfp p =
        teamSecondaryGet dft t (playerPrimary dft dfp p) := by
  rcases modeTeam_spec hne with ⟨t, hmode, hmem, hmax, hmin⟩
  refine ⟨t, hmode, hmem, hmax, hmin, ?_, ?_⟩
  · unfold playerPrimary
    rw [hmode]
  · unfold playerSecondary
    rw [hmode]

/-- Witness for C4 (amended) at the concrete tied example. -/
theorem C4_witness :
    playerTeams exPlayerColors "X" ≠ [] ∧
    ∃ t, modeTeam (playerTeams exPlayerColors "X") = some t ∧
      t ∈ playerTeams exPlayerColors "X" ∧
      (∀ w ∈ playerTeams exPlayerColors "X",
        (playerTeams exPlayerColors "X").count w ≤
          (playerTeams exPlayerColors "X").count t) ∧
      (∀ w ∈ playerTeams exPlayerColors "X",
        (playerTeams exPlayerColors "X").count w =
          (playerTeams exPlayerColors "X").count t → t ≤ w) ∧
      playerPrimary exTeamColors exPlayerColors "X" =
        teamPrimaryGet exTeamColors t defaultTeamColor ∧
      playerSecondary exTeamColors exPlayerColors "X" =
        teamSecondaryGet exTeamColors t
          (playerPrimary exTeamColors exPlayerColors "X") := by
  have hne : playerTeams exPlayerColors "X" ≠ [] := by decide
  exact ⟨hne, C4_color_resolver_amended exTeamColors exPlayerColors "X" hne⟩

theorem nodup_sortedKeys {κ : Type} (le : κ → κ → Prop) [DecidableRel le]
    [DecidableEq κ] (l : List κ) : (sortedKeys le l).Nodup :=
  ((List.perm_insertionSort le l.dedup).nodup_iff).mpr (List.nodup_dedup l)

theorem sorted_sortedKeys {κ : Type} (le : κ → κ → Prop) [DecidableRel le]
    [DecidableEq κ] [IsTotal κ le] [IsTrans κ le] (l : List κ) :
    (sortedKeys le l).Pairwise le :=
  List.sorted_insertionSort le l.dedup

theorem sortedKeys_congr {κ : Type} (le : κ → κ → Prop) [DecidableRel le]
    [DecidableEq κ] [IsTotal κ le] [IsTrans κ le] [IsAntisymm κ le]
    {l1 l2 : List κ} (h : ∀ a, a ∈ l1 ↔ a ∈ l2) :
    sortedKeys le l1 = sortedKeys le l2 := by
  apply List.eq_of_perm_of_sorted ?_ (sorted_sortedKeys le l1) (sorted_sortedKeys le l2)
  apply (List.perm_ext_iff_of_nodup (nodup_sortedKeys le l1)
    (nodup_sortedKeys le l2)).mpr
  intro a
  rw [mem_sortedKeys, mem_sortedKeys]
  exact h a

theorem parity_eq_paritySpec (df : List TeamRow) : parity df = paritySpec df := by
  have h1 : (perTeamWin df).map (fun x => x.1.1) =
      (sortedKeys pairLe (df.map fun r => (r.season, r.nickname))).map Prod.fst := by
    unfold perTeamWin groupByAgg
    rw [List.map_map]
    rfl
  have hkeys : sortedKeys (· ≤ ·) ((perTeamWin df).map fun x => x.1.1) =
      sortedKeys (· ≤ ·) (df.map (·.season)) := by
    rw [h1]
    apply sortedKeys_congr
    intro a
    constructor
    · intro ha
      rcases List.mem_map.mp ha with ⟨x, hx, rfl⟩
      rcases List.mem_map.mp (mem_sortedKeys.mp hx) with ⟨r, hr, rfl⟩
      exact List.mem_map.mpr ⟨r, hr, rfl⟩
    · intro ha
      rcases List.mem_map.mp ha with ⟨r, hr, rfl⟩
      exact List.mem_map.mpr ⟨(r.season, r.nickname),
        mem_sortedKeys.mpr (List.mem_map.mpr ⟨r, hr, rfl⟩), rfl⟩
  unfold parity paritySpec
  unfold groupByAgg
  rw [hkeys]
  apply List.map_congr_left
  intro s hs
  dsimp only
  have hKS : (sortedKeys pairLe (df.map fun r => (r.season, r.nickname))).filter
      (fun k => decide (k.1 = s)) =
      (sortedKeys (· ≤ ·)
        ((df.filter fun r => decide (r.season = s)).map (·.nickname))).map
        (fun t => (s, t)) := by
    apply List.eq_of_perm_of_sorted (r := pairLe)
    · apply (List.perm_ext_iff_of_nodup ((nodup_sortedKeys _ _).filter _)
        (List.Nodup.map (fun a b h => congrArg Prod.snd h)
          (nodup_sortedKeys _ _))).mpr
      intro x
      constructor
      · intro hx
        have hx' := List.mem_filter.mp hx
        rcases List.mem_map.mp (mem_sortedKeys.mp hx'.1) with ⟨r, hr, rfl⟩
        have hxs : r.season = s := of_decide_eq_true hx'.2
        apply List.mem_map.mpr
        refine ⟨r.nickname, mem_sortedKeys.mpr (List.mem_map.mpr
          ⟨r, List.mem_filter.mpr ⟨hr, by simp [hxs]⟩, rfl⟩), ?_⟩
        rw [hxs]
      · intro hx
        rcases List.mem_map.mp hx with ⟨t, ht, rfl⟩
        rcases List.mem_map.mp (mem_sortedKeys.mp ht) with ⟨r, hr, rfl⟩
        have hr' := List.mem_filter.mp hr
        have hrs : r.season = s := of_decide_eq_true hr'.2
        apply List.mem_filter.mpr
        refine ⟨mem_sortedKeys.mpr (List.mem_map.mpr ⟨r, hr'.1, ?_⟩), by simp⟩
        rw [hrs]
    · exact List.Pairwise.filter _ (sorted_sortedKeys _ _)
    · exact List.Pairwise.map (fun t => (s, t))
        (fun a b (hab : a ≤ b) => Or.inr ⟨rfl, hab⟩)
        (sorted_sortedKeys (· ≤ ·) _)
  have h2 : (perTeamWin df).filter (fun r => decide (r.1.1 = s)) =
      ((sortedKeys pairLe (df.map fun r => (r.season, r.nickname))).filter
        (fun k => decide (k.1 = s))).map
        (fun k => (k, mean ((df.filter
          fun r => decide ((r.season, r.nickname) = k)).map winQ))) := by
    unfold perTeamWin groupByAgg
    rw [List.filter_map]
    rfl
  refine congrArg (fun q => ((s : Int), q)) (congrArg median ?_)
  calc ((perTeamWin df).filter fun r => decide (r.1.1 = s)).map Prod.snd
      = ((sortedKeys pairLe (df.map fun r => (r.season, r.nickname))).filter
          (fun k => decide (k.1 = s))).map
          (fun k => mean ((df.filter
            fun r => decide ((r.season, r.nickname) = k)).map winQ)) := by
        rw [h2, List.map_map]
        rfl
    _ = (sortedKeys (· ≤ ·)
          ((df.filter fun r => decide (r.season = s)).map (·.nickname))).map
          (fun t => mean (((df.filter fun r => decide (r.season = s)).filter
            fun r => decide (r.nickname = t)).map winQ)) := by
        rw [hKS, List.map_map]
        apply List.map_congr_left
        intro t ht
        refine congrArg (fun l : List TeamRow => mean (l.map winQ)) ?_
        rw [List.filter_filter]
        apply List.filter_congr
        intro r _
        simp [Prod.ext_iff, Bool.and_comm]

/-- C5: the league-parity aggregation is the two-stage nested reduction — per
(season, team) mean win rate, then the median across that season's teams —
and it differs from the raw per-season mean of the win flag on a concrete
table (two Bulls wins and one Lakers loss in one season: nested value 1/2,
raw mean 2/3). -/
theorem C5_parity_two_stage (df : List TeamRow) :
    parity df = paritySpec df ∧
    parity exTeamParity ≠ rawSeasonWinMean exTeamParity :=
  ⟨parity_eq_paritySpec df, by with_unfolding_all decide⟩

/-- Witness for C5 at the concrete three-row table. -/
theorem C5_witness : parity exTeamParity = paritySpec exTeamParity :=
  (C5_parity_two_stage exTeamParity).1

/-- Witness for C9: concrete selections differing only in the player set. -/
theorem C9_witness :
    exSelWithPlayer.seasons = exSelNoPlayer.seasons ∧
    exSelWithPlayer.teams = exSelNoPlayer.teams ∧
    filterTeamTable exSelWithPlayer exTeamParity =
      filterTeamTable exSelNoPlayer exTeamParity :=
  ⟨rfl, rfl,
    (C9_player_filter_noninterference exSelWithPlayer exSelNoPlayer exTeamParity
      rfl rfl).1⟩

end Statistella
